import Mathlib

/-!
Shallow embedding of the checkpoint-to-ggjt converter
(`convert-pth-to-ggml.py`) and verification of its specified properties.

Integers written to the output are modelled as `Nat` values (the values the
program packs into 4-byte fields); the byte stream of a tensor body is
modelled as a partial map from byte offset to byte value.
-/

namespace ConvertPth

/-- Block constant `QK = 32`. -/
def QK : Nat := 32

def GGML_TYPE_Q4_0 : Nat := 0

def GGML_TYPE_Q4_1 : Nat := 1

def GGML_TYPE_I8 : Nat := 2

def GGML_TYPE_I16 : Nat := 3

def GGML_TYPE_I32 : Nat := 4

def GGML_TYPE_F16 : Nat := 5

def GGML_TYPE_F32 : Nat := 6

/-- The `WTYPES` dict: per-tensor ftype code to ggml type code. -/
def WTYPES (f : Nat) : Option Nat :=
  if f = 0 then some GGML_TYPE_F32
  else if f = 1 then some GGML_TYPE_F16
  else if f = 2 then some GGML_TYPE_Q4_0
  else if f = 3 then some GGML_TYPE_Q4_1
  else none

/-- The `GGML_BLCK_SIZE` dict: ggml type code to block width. -/
def GGML_BLCK_SIZE (t : Nat) : Option Nat :=
  if t = GGML_TYPE_Q4_0 then some QK
  else if t = GGML_TYPE_Q4_1 then some QK
  else if t = GGML_TYPE_I8 then some 1
  else if t = GGML_TYPE_I16 then some 1
  else if t = GGML_TYPE_I32 then some 1
  else if t = GGML_TYPE_F16 then some 1
  else if t = GGML_TYPE_F32 then some 1
  else none

/-- The `GGML_TYPE_SIZE` dict: ggml type code to bytes per block. -/
def GGML_TYPE_SIZE (t : Nat) : Option Nat :=
  if t = GGML_TYPE_Q4_0 then some (4 + QK / 2)
  else if t = GGML_TYPE_Q4_1 then some (4 * 2 + QK / 2)
  else if t = GGML_TYPE_I8 then some 1
  else if t = GGML_TYPE_I16 then some 2
  else if t = GGML_TYPE_I32 then some 4
  else if t = GGML_TYPE_F16 then some 2
  else if t = GGML_TYPE_F32 then some 4
  else none

/-- `ggml_nelements`: product of the dimensions. -/
def ggml_nelements (shape : List Nat) : Nat :=
  shape.foldl (fun r i => r * i) 1

/-- `ggml_nbytes`: element count times bytes per block, floor-divided by the
block width, after translating the per-tensor ftype through `WTYPES`. -/
def ggml_nbytes (shape : List Nat) (ftype : Nat) : Option Nat := do
  let t ← WTYPES ftype
  let s ← GGML_TYPE_SIZE t
  let b ← GGML_BLCK_SIZE t
  pure (ggml_nelements shape * s / b)

/-- `get_n_parts`: the shard-count lookup; `none` models `sys.exit(1)`. -/
def get_n_parts (dim : Nat) : Option Nat :=
  if dim = 4096 then some 1
  else if dim = 5120 then some 2
  else if dim = 6656 then some 4
  else if dim = 8192 then some 8
  else none

/-- The hyperparameters read from `params.json` (plus the vocab size slot). -/
structure Hparams where
  vocab_size : Nat
  dim : Nat
  multiple_of : Nat
  n_heads : Nat
  n_layers : Nat
deriving DecidableEq, Repr

/-- `write_header`: the nine 4-byte integers, in the order the code packs
them: magic, version, then the hyperparameters in the key order
`vocab_size, dim, multiple_of, n_heads, n_layers`, then the obsolete
rotary dimension, then the ftype selector. -/
def write_header (h : Hparams) (ftype : Nat) : List Nat :=
  [0x67676a74, 1, h.vocab_size, h.dim, h.multiple_of, h.n_heads, h.n_layers,
   h.dim / h.n_heads, ftype]

/-- The header field order asserted by the specification document:
the five hyperparameters as `dim, multiple_of, n_heads, n_layers,
vocab_size`. Written from the spec's words, for comparison with
`write_header`. -/
def spec_claimed_header (h : Hparams) (ftype : Nat) : List Nat :=
  [0x67676a74, 1, h.dim, h.multiple_of, h.n_heads, h.n_layers, h.vocab_size,
   h.dim / h.n_heads, ftype]

/-- Block width of each selector-level encoding as the spec states it:
1 for F32 and F16, 32 for Q4_0 and Q4_1. -/
def blck_of_ftype (f : Nat) : Nat :=
  if f = 0 ∨ f = 1 then 1 else 32

/-- Bytes per block of each selector-level encoding: 4 for F32, 2 for F16,
20 for Q4_0, 24 for Q4_1. -/
def size_of_ftype (f : Nat) : Nat :=
  if f = 0 then 4 else if f = 1 then 2 else if f = 2 then 20 else 24

/-- Per-tensor encoding decision of `process_and_write_variables`:
`ftype_cur = 1`, overridden to 0 when the run selector is 0 or rank is 1. -/
def ftype_cur_of (ftype n_dims : Nat) : Nat :=
  if ftype = 0 ∨ n_dims = 1 then 0 else 1

/-- Whether the writer casts the tensor data to float32 (the
`data.astype(np.float32)` branch). -/
def converts_to_f32 (ftype n_dims : Nat) : Bool :=
  ftype == 0 || n_dims == 1

/-- Token category, recovered from the tokenizer's three predicates. -/
inductive TokenCategory where
  | unknown
  | control
  | byte
  | normal
deriving DecidableEq, Repr

/-- The external tokenizer model: size, classification predicates, piece
text, score (the f32 score is carried opaquely as an `Int` payload). -/
structure Tokenizer where
  vocabSize : Nat
  is_unknown : Nat → Bool
  is_control : Nat → Bool
  is_byte : Nat → Bool
  piece : Nat → List Char
  score : Nat → Int

/-- Classification order of `write_tokens`: unknown, then control, then
byte, then normal. -/
def classify (t : Tokenizer) (i : Nat) : TokenCategory :=
  if t.is_unknown i then .unknown
  else if t.is_control i then .control
  else if t.is_byte i then .byte
  else .normal

/-- Value of one hexadecimal digit, as accepted by Python `int(s, 16)`. -/
def hexDigitVal (c : Char) : Option Nat :=
  if '0' ≤ c ∧ c ≤ '9' then some (c.toNat - '0'.toNat)
  else if 'a' ≤ c ∧ c ≤ 'f' then some (c.toNat - 'a'.toNat + 10)
  else if 'A' ≤ c ∧ c ≤ 'F' then some (c.toNat - 'A'.toNat + 10)
  else none

/-- `int(piece[3:-1], 16)` for a 6-character piece: the hex pair at
positions 3 and 4. `none` models the uncaught parse failure. -/
def pieceByteVal (p : List Char) : Option Nat := do
  let c1 ← p.get? 3
  let c2 ← p.get? 4
  let h1 ← hexDigitVal c1
  let h2 ← hexDigitVal c2
  pure (16 * h1 + h2)

/-- UTF-8 encoding of one scalar value, as Python `str.encode()` emits it. -/
def utf8Bytes (c : Char) : List Nat :=
  let n := c.toNat
  if n < 0x80 then [n]
  else if n < 0x800 then [0xC0 + n / 0x40, 0x80 + n % 0x40]
  else if n < 0x10000 then
    [0xE0 + n / 0x1000, 0x80 + n / 0x40 % 0x40, 0x80 + n % 0x40]
  else
    [0xF0 + n / 0x40000, 0x80 + n / 0x1000 % 0x40, 0x80 + n / 0x40 % 0x40,
     0x80 + n % 0x40]

/-- UTF-8 encoding of a character sequence. -/
def utf8Encode (s : List Char) : List Nat :=
  s.foldr (fun c acc => utf8Bytes c ++ acc) []

/-- The word-boundary marker U+2581 that `write_tokens` replaces by a
space in normal pieces. -/
def sentencepieceSpace : Char := Char.ofNat 0x2581

/-- The Unicode character U+2047 used in the unknown-token placeholder. -/
def doubleQuestion : Char := Char.ofNat 0x2047

/-- The text bytes `write_tokens` emits for one entry, by category:
the fixed placeholder `" ⁇ "` for unknown, empty for control, one
decoded byte for byte pieces (fatal, `none`, when the piece is not
6 characters), and the marker-substituted UTF-8 piece otherwise. -/
def category_text (cat : TokenCategory) (p : List Char) : Option (List Nat) :=
  match cat with
  | .unknown => some (utf8Encode [' ', doubleQuestion, ' '])
  | .control => some []
  | .byte =>
      if p.length = 6 then (pieceByteVal p).map (fun b => [b]) else none
  | .normal =>
      some (utf8Encode (p.map (fun c => if c = sentencepieceSpace then ' ' else c)))

/-- Text bytes for vocabulary index `i`. -/
def token_text (t : Tokenizer) (i : Nat) : Option (List Nat) :=
  category_text (classify t i) (t.piece i)

/-- One vocabulary record: length prefix, text bytes, score. -/
def token_record (t : Tokenizer) (i : Nat) : Option (Nat × List Nat × Int) :=
  (token_text t i).map (fun tx => (tx.length, tx, t.score i))

/-- The `write_tokens` loop over a list of indices; `none` models the
mid-loop fatal abort. -/
def write_tokens_from (t : Tokenizer) : List Nat → Option (List (Nat × List Nat × Int))
  | [] => some []
  | i :: is =>
      match token_record t i, write_tokens_from t is with
      | some r, some rs => some (r :: rs)
      | _, _ => none

/-- `write_tokens`: one record per index `0 .. vocab_size - 1`. -/
def write_tokens (t : Tokenizer) : Option (List (Nat × List Nat × Int)) :=
  write_tokens_from t (List.range t.vocabSize)

/-- `hparams.update` at load time: the tokenizer's vocab size overrides
whatever `params.json` carried. -/
def load_hparams_update (raw : Hparams) (t : Tokenizer) : Hparams :=
  { raw with vocab_size := t.vocabSize }

/-- The output regions produced by a full (non vocab-only) run. -/
structure OutputModel where
  header : List Nat
  tokens : List (Nat × List Nat × Int)
  tensor_region : List Nat
deriving Repr

/-- `main`'s conversion path: shard-count lookup first (fatal on an
unknown dimension, before any output), then header, vocabulary and the
tensor region (the latter abstracted as a function of the shard count). -/
def main_output (raw : Hparams) (t : Tokenizer) (ftype : Nat)
    (tensor_section : Nat → List Nat) : Option OutputModel := do
  let hp := load_hparams_update raw t
  let nparts ← get_n_parts hp.dim
  let toks ← write_tokens t
  pure ⟨write_header hp ftype, toks, tensor_section nparts⟩

/-- Python's substring test `pat in name` on character lists. -/
def contains_sub (name pat : List Char) : Bool :=
  match name with
  | [] => pat.isEmpty
  | c :: tl => List.isPrefixOf pat (c :: tl) || contains_sub tl pat

def tok_embeddings_marker : List Char := "tok_embeddings".data

def layers_marker : List Char := "layers".data

def attention_wo_marker : List Char := "attention.wo.weight".data

def feed_forward_w2_marker : List Char := "feed_forward.w2.weight".data

def output_marker : List Char := "output".data

/-- The split-axis decision of `process_and_write_variables` for rank-2
tensors: default 1, then the `tok_embeddings` / `layers` / `output`
branch chain. -/
def split_dim_of (name : List Char) : Nat :=
  let d := 1
  if contains_sub name tok_embeddings_marker then 1
  else if contains_sub name layers_marker then
    if contains_sub name attention_wo_marker then 1
    else if contains_sub name feed_forward_w2_marker then 1
    else 0
  else if contains_sub name output_marker then 0
  else d

/-- First-match evaluation of a priority-ordered rule table, with a
default axis when no rule fires. -/
def first_match (rules : List ((List Char → Bool) × Nat)) (default : Nat)
    (name : List Char) : Nat :=
  match rules with
  | [] => default
  | (p, ax) :: rest => if p name then ax else first_match rest default name

/-- The split-axis policy as the specification words it: a declarative
table evaluated in priority order — embedding marker, then the two
reduced per-layer projections, then any other per-layer weight, then the
final output projection — with default axis 1. -/
def split_dim_spec (name : List Char) : Nat :=
  first_match
    [(fun n => contains_sub n tok_embeddings_marker, 1),
     (fun n => contains_sub n layers_marker && contains_sub n attention_wo_marker, 1),
     (fun n => contains_sub n layers_marker && contains_sub n feed_forward_w2_marker, 1),
     (fun n => contains_sub n layers_marker, 0),
     (fun n => contains_sub n output_marker, 0)]
    1 name

/-- The padding loop before a tensor body: append zero bytes until the
offset is a multiple of `QK`. -/
def align_body (off : Nat) : Nat :=
  if off % QK = 0 then off else align_body (off + 1)
termination_by (QK - off % QK) % QK
decreasing_by simp only [QK] at *; omega

/-- A sparse byte file: offset to written byte, `none` when unwritten. -/
def ByteFile : Type := Nat → Option Nat

/-- The never-written file. -/
def empty_file : ByteFile := fun _ => none

/-- One positioned write of a byte string (a `seek` followed by `tofile`). -/
def write_at (f : ByteFile) (w : Nat × List Nat) : ByteFile :=
  fun a => if w.1 ≤ a ∧ a < w.1 + w.2.length then w.2.get? (a - w.1) else f a

/-- Sequential application of positioned writes, later writes on top. -/
def apply_writes (f : ByteFile) (ws : List (Nat × List Nat)) : ByteFile :=
  ws.foldl write_at f

/-- Bytes of row `r` of a row-major buffer whose rows are `bpr` bytes. -/
def row_slice (data : List Nat) (bpr r : Nat) : List Nat :=
  (data.drop (r * bpr)).take bpr

/-- `numpy.squeeze`: remove every singleton dimension of a shape. -/
def squeeze (shape : List Nat) : List Nat :=
  shape.filter (fun d => d != 1)

/-- The positioned writes one shard performs inside a tensor body
(offsets relative to `tensor_data_offset`), following the writer's
branches on the squeezed shard shape: when the squeezed rank is 1 or
there is a single shard, only shard 0 writes its whole buffer at the
body start; otherwise, for `split_dim = 0` one contiguous write at
`k * partshape[0] * bytes_per_row`, and for `split_dim = 1` one write
per row at `row * bytes_per_row + (k * partshape[1]) / blck * tsize`,
with `bytes_per_row = partshape[1] / blck * tsize` computed from the
shard's own shape. -/
def shard_body_writes (shape0 : List Nat) (split_dim blck tsize k nparts : Nat)
    (data : List Nat) : List (Nat × List Nat) :=
  let partshape := squeeze shape0
  if partshape.length = 1 ∨ nparts = 1 then
    if k = 0 then [(0, data)] else []
  else
    let R := partshape.headD 0
    let C := (partshape.drop 1).headD 0
    if split_dim = 0 then
      [(k * R * (C / blck * tsize), data)]
    else
      (List.range R).map (fun r =>
        (r * (C / blck * tsize) + k * C / blck * tsize,
         row_slice data (C / blck * tsize) r))

/-- Tensor body contents after every shard `0 .. nparts - 1` has made its
pass over this tensor, in shard order, starting from each shard's loaded
shape `shape0` (squeezed inside `shard_body_writes`, as line 143 does
before the branch on rank). -/
def body_after_all_shards (shape0 : List Nat) (split_dim blck tsize nparts : Nat)
    (data : Nat → List Nat) : ByteFile :=
  apply_writes empty_file
    ((List.range nparts).foldr
      (fun k acc =>
        shard_body_writes shape0 split_dim blck tsize k nparts (data k) ++ acc) [])

/-- The logical unsharded row-major buffer of a column-partitioned
(`split_dim = 1`) tensor: row `r` is the concatenation over shards of
row `r` of each shard's buffer. -/
def original_split1 (R C blck tsize nparts : Nat) (data : Nat → List Nat) :
    List Nat :=
  (List.range R).foldr
    (fun r acc =>
      (List.range nparts).foldr
        (fun k acc2 => row_slice (data k) (C / blck * tsize) r ++ acc2) [] ++ acc)
    []

/-- The concrete shard buffers of the split reconstruction
counterexample: two shards of shape `(2, 2)` in F32 (the shape survives
the squeeze), 16 bytes each, all thirty-two byte values distinct. -/
def cex_data (k : Nat) : List Nat :=
  if k = 0 then
    [0, 1, 2, 3, 4, 5, 6, 7, 8, 9, 10, 11, 12, 13, 14, 15]
  else
    [16, 17, 18, 19, 20, 21, 22, 23, 24, 25, 26, 27, 28, 29, 30, 31]

/-- The end-of-tensor reposition of the writer: `fout.seek(
tensor_data_offset + ggml_nbytes(partshape, ftype_cur))`, computed from
the shard-local shape. -/
def tensor_end_seek (body_start : Nat) (partshape : List Nat)
    (ftype_cur : Nat) : Option Nat :=
  (ggml_nbytes partshape ftype_cur).map (fun nb => body_start + nb)

/-- A successful `write_tokens_from` pass emits one record per index. -/
theorem write_tokens_from_length (t : Tokenizer) :
    ∀ (l : List Nat) (res : List (Nat × List Nat × Int)),
      write_tokens_from t l = some res → res.length = l.length := by
  intro l
  induction l with
  | nil =>
      intro res h
      simp only [write_tokens_from, Option.some.injEq] at h
      simp [← h]
  | cons i is ih =>
      intro res h
      simp only [write_tokens_from] at h
      cases hr : token_record t i with
      | none => rw [hr] at h; exact absurd h (by simp)
      | some r =>
        cases hrs : write_tokens_from t is with
        | none => rw [hr, hrs] at h; exact absurd h (by simp)
        | some rs =>
            rw [hr, hrs] at h
            injection h with h
            subst h
            simp [ih rs hrs]

/-- Closed form of the padding loop. -/
theorem align_body_eq : ∀ (n off : Nat), (32 - off % 32) % 32 = n →
    align_body off = off + n := by
  intro n
  induction n with
  | zero =>
      intro off h
      have h0 : off % 32 = 0 := by omega
      rw [align_body]
      simp [QK, h0]
  | succ m ih =>
      intro off h
      have h0 : ¬ off % 32 = 0 := by omega
      have hq : ¬ off % QK = 0 := by simpa [QK] using h0
      rw [align_body, if_neg hq]
      have hm : (32 - (off + 1) % 32) % 32 = m := by omega
      rw [ih (off + 1) hm]
      omega

/-- Claim C4: every tensor body starts at the next multiple of the fixed
constant 32 at or after the end of the record header: the padded offset
is 32-aligned, not before the current offset, and less than 32 bytes
past it. -/
theorem c4_body_alignment (off : Nat) :
    align_body off % 32 = 0 ∧ off ≤ align_body off ∧
    align_body off < off + 32 := by
  have h := align_body_eq ((32 - off % 32) % 32) off rfl
  omega

/-- Claim C6: for every shape whose element count the encoding's block
width divides, `ggml_nbytes` is exactly elements times bytes-per-block
over block width, with zero remainder, for each of the four encodings
F32, F16, Q4_0, Q4_1 (selector codes 0..3). -/
theorem c6_size_consistency (shape : List Nat) (f : Nat) (hf : f < 4)
    (hd : blck_of_ftype f ∣ ggml_nelements shape) :
    ggml_nbytes shape f =
      some (ggml_nelements shape * size_of_ftype f / blck_of_ftype f) ∧
    ggml_nelements shape * size_of_ftype f % blck_of_ftype f = 0 := by
  have hmul : blck_of_ftype f ∣ ggml_nelements shape * size_of_ftype f :=
    hd.mul_right _
  obtain ⟨m, hm⟩ := hmul
  refine ⟨?_, by rw [hm, Nat.mul_mod_right]⟩
  interval_cases f <;> rfl

/-- Witness for C6 at shape `[64]` and the Q4_0 selector code 2. -/
theorem c6_size_consistency_witness :
    ggml_nbytes [64] 2 =
      some (ggml_nelements [64] * size_of_ftype 2 / blck_of_ftype 2) ∧
    ggml_nelements [64] * size_of_ftype 2 % blck_of_ftype 2 = 0 :=
  c6_size_consistency [64] 2 (by decide) (by decide)

/-- Counterexample to claim C3: with all hyperparameters distinct, the
header the code writes differs from the order the claim asserts
(embedding_dim, multiple_of, head_count, layer_count, vocab_size). -/
theorem c3_header_order_cex :
    write_header ⟨3, 4, 5, 6, 7⟩ 1 ≠ spec_claimed_header ⟨3, 4, 5, 6, 7⟩ 1 := by
  decide

/-- Claim C3 as amended: the header is exactly nine integers — magic,
version 1, then vocab_size, embedding_dim, multiple_of, head_count,
layer_count, then the derived rotary dimension, then the selector. -/
theorem c3_header_order_amended (h : Hparams) (f : Nat) :
    (write_header h f).length = 9 ∧
    (write_header h f).get? 0 = some 0x67676a74 ∧
    (write_header h f).get? 1 = some 1 ∧
    (write_header h f).get? 2 = some h.vocab_size ∧
    (write_header h f).get? 3 = some h.dim ∧
    (write_header h f).get? 4 = some h.multiple_of ∧
    (write_header h f).get? 5 = some h.n_heads ∧
    (write_header h f).get? 6 = some h.n_layers ∧
    (write_header h f).get? 7 = some (h.dim / h.n_heads) ∧
    (write_header h f).get? 8 = some f := by
  refine ⟨rfl, rfl, rfl, rfl, rfl, rfl, rfl, rfl, rfl, rfl⟩

/-- Claim C8: the shard-count lookup maps 4096, 5120, 6656, 8192 to
1, 2, 4, 8 shards, and any other embedding dimension is fatal: the
lookup fails and the whole conversion produces no output at all. -/
theorem c8_shard_count_lookup :
    get_n_parts 4096 = some 1 ∧ get_n_parts 5120 = some 2 ∧
    get_n_parts 6656 = some 4 ∧ get_n_parts 8192 = some 8 ∧
    ∀ d, d ≠ 4096 → d ≠ 5120 → d ≠ 6656 → d ≠ 8192 →
      get_n_parts d = none ∧
      ∀ (raw : Hparams) (t : Tokenizer) (ftype : Nat)
        (ts : Nat → List Nat), raw.dim = d →
        main_output raw t ftype ts = none := by
  refine ⟨rfl, rfl, rfl, rfl, ?_⟩
  intro d h1 h2 h3 h4
  have hnone : get_n_parts d = none := by
    simp [get_n_parts, h1, h2, h3, h4]
  refine ⟨hnone, ?_⟩
  intro raw t ftype ts hdim
  have hdim2 : (load_hparams_update raw t).dim = d := hdim
  simp [main_output, hdim2, hnone]

/-- A tokenizer with no entries, for the C8 witness. -/
def triv_tok : Tokenizer :=
  ⟨0, fun _ => false, fun _ => false, fun _ => false, fun _ => [], fun _ => 0⟩

/-- Witness for C8 at the unmapped embedding dimension 5. -/
theorem c8_shard_count_lookup_witness :
    get_n_parts 5 = none ∧
    main_output ⟨0, 5, 0, 0, 0⟩ triv_tok 1 (fun _ => []) = none := by
  have h := c8_shard_count_lookup.2.2.2.2 5
    (by decide) (by decide) (by decide) (by decide)
  exact ⟨h.1, h.2 ⟨0, 5, 0, 0, 0⟩ triv_tok 1 (fun _ => []) rfl⟩

/-- Claim C5: the per-tensor encoding is a function of the run selector
and the rank alone: selector 0 or rank 1 forces the full-precision tag
(F32, with the float32 cast taken); any other combination yields the
reduced-precision tag (F16, no cast); the chosen tag never denotes
Q4_0 or Q4_1 for any selector value. -/
theorem c5_encoding_choice (ftype n_dims : Nat) :
    (ftype_cur_of ftype n_dims = 0 ∨ ftype_cur_of ftype n_dims = 1) ∧
    (ftype = 0 ∨ n_dims = 1 →
      ftype_cur_of ftype n_dims = 0 ∧
      WTYPES (ftype_cur_of ftype n_dims) = some GGML_TYPE_F32 ∧
      converts_to_f32 ftype n_dims = true) ∧
    (¬(ftype = 0 ∨ n_dims = 1) →
      ftype_cur_of ftype n_dims = 1 ∧
      WTYPES (ftype_cur_of ftype n_dims) = some GGML_TYPE_F16 ∧
      converts_to_f32 ftype n_dims = false) ∧
    WTYPES (ftype_cur_of ftype n_dims) ≠ some GGML_TYPE_Q4_0 ∧
    WTYPES (ftype_cur_of ftype n_dims) ≠ some GGML_TYPE_Q4_1 := by
  by_cases h : ftype = 0 ∨ n_dims = 1 <;>
    simp only [ftype_cur_of, converts_to_f32, if_pos, if_neg, h,
      not_true_eq_false, not_false_eq_true, if_true, if_false] <;>
    simp_all [WTYPES, GGML_TYPE_F32, GGML_TYPE_F16, GGML_TYPE_Q4_0,
      GGML_TYPE_Q4_1, Nat.beq_eq_true_eq]

/-- Witness for C5 at selector 0 with rank 2, and selector 1 with
rank 2. -/
theorem c5_encoding_choice_witness :
    (ftype_cur_of 0 2 = 0 ∧ WTYPES (ftype_cur_of 0 2) = some GGML_TYPE_F32 ∧
      converts_to_f32 0 2 = true) ∧
    (ftype_cur_of 1 2 = 1 ∧ WTYPES (ftype_cur_of 1 2) = some GGML_TYPE_F16 ∧
      converts_to_f32 1 2 = false) :=
  ⟨(c5_encoding_choice 0 2).2.1 (Or.inl rfl),
   (c5_encoding_choice 1 2).2.2.1 (by decide)⟩

/-- Claim C9: for rank-2 tensors the shard-partition axis chosen by the
writer coincides with the specification's priority-ordered rule table:
embedding marker 1; per-layer with attention-output or feed-forward
second projection 1; any other per-layer weight 0; final output
projection 0; otherwise the default axis 1. -/
theorem c9_split_axis_priority (name : List Char) :
    split_dim_of name = split_dim_spec name := by
  by_cases h1 : contains_sub name tok_embeddings_marker = true <;>
  by_cases h2 : contains_sub name layers_marker = true <;>
  by_cases h3 : contains_sub name attention_wo_marker = true <;>
  by_cases h4 : contains_sub name feed_forward_w2_marker = true <;>
  by_cases h5 : contains_sub name output_marker = true <;>
  simp_all [split_dim_of, split_dim_spec, first_match]

/-- Claim C7: the vocabulary text field per category — a 6-character
byte piece whose embedded hex pair has value 0x41 encodes to exactly
the byte 0x41; an unknown entry encodes to the fixed placeholder bytes
of " ⁇ " regardless of its piece; a control entry encodes to the empty
text; and a byte piece whose length is not 6 is fatal. -/
theorem c7_vocab_categories :
    (∀ p : List Char, p.length = 6 → pieceByteVal p = some 0x41 →
      category_text .byte p = some [0x41]) ∧
    (∀ p : List Char,
      category_text .unknown p = some [0x20, 0xE2, 0x81, 0x87, 0x20]) ∧
    (∀ p : List Char, category_text .control p = some []) ∧
    (∀ p : List Char, p.length ≠ 6 → category_text .byte p = none) := by
  refine ⟨?_, ?_, ?_, ?_⟩
  · intro p h6 hv
    simp [category_text, h6, hv]
  · intro p
    rfl
  · intro p
    rfl
  · intro p h6
    simp [category_text, h6]

/-- Witness for C7 at the concrete pieces of the claim. -/
theorem c7_vocab_categories_witness :
    category_text .byte ("<0x41>".data) = some [0x41] ∧
    category_text .unknown ("xyz".data) = some [0x20, 0xE2, 0x81, 0x87, 0x20] ∧
    category_text .control ("xyz".data) = some [] ∧
    category_text .byte ("<0x4>".data) = none :=
  ⟨c7_vocab_categories.1 _ (by decide) (by decide),
   c7_vocab_categories.2.1 _,
   c7_vocab_categories.2.2.1 _,
   c7_vocab_categories.2.2.2 _ (by decide)⟩

/-- Claim C10: the loader overrides the vocab size with the tokenizer's,
the header's third field carries exactly that value, and a successful
vocabulary pass emits exactly that many records, so the header count and
the emitted entry count agree. -/
theorem c10_vocab_size_agreement (raw : Hparams) (t : Tokenizer) (f : Nat)
    (recs : List (Nat × List Nat × Int)) (h : write_tokens t = some recs) :
    (load_hparams_update raw t).vocab_size = t.vocabSize ∧
    (write_header (load_hparams_update raw t) f).get? 2 = some t.vocabSize ∧
    recs.length = t.vocabSize := by
  refine ⟨rfl, rfl, ?_⟩
  have hl := write_tokens_from_length t (List.range t.vocabSize) recs h
  simpa using hl

/-- A one-entry control-token tokenizer, for the C10 witness. -/
def one_control_tok : Tokenizer :=
  ⟨1, fun _ => false, fun _ => true, fun _ => false, fun _ => [], fun _ => 0⟩

/-- Witness for C10: a raw vocab size of 7 is overridden by the
tokenizer's size 1, which is also the record count. -/
theorem c10_vocab_size_agreement_witness :
    (load_hparams_update ⟨7, 0, 0, 0, 0⟩ one_control_tok).vocab_size = 1 ∧
    (write_header (load_hparams_update ⟨7, 0, 0, 0, 0⟩ one_control_tok) 1).get? 2
      = some 1 ∧
    ([((0 : Nat), ([] : List Nat), (0 : Int))]).length = 1 :=
  c10_vocab_size_agreement ⟨7, 0, 0, 0, 0⟩ one_control_tok 1 [(0, [], 0)] rfl

/-- Claim C1, behavior at the failing input: two shards of shape (2, 2)
in F32 under a column split — a shape the squeeze leaves at rank 2, so
the split path runs. The writer's shard-local row stride of 8 bytes
(the full unsharded row is 16) makes shard 1's second row land at body
offset 16, where the reconstructed unsharded buffer holds shard 0's
second row (byte value 8, not 24), and leaves offset 24 unwritten
although the unsharded buffer has a byte there: the shards' column
slices do not reassemble to the original buffer. -/
theorem c1_split1_not_reconstructed :
    body_after_all_shards [2, 2] 1 1 4 2 cex_data 16 = some 24 ∧
    (original_split1 2 2 1 4 2 cex_data).get? 16 = some 8 ∧
    body_after_all_shards [2, 2] 1 1 4 2 cex_data 24 = none ∧
    (original_split1 2 2 1 4 2 cex_data).get? 24 = some 24 := by
  refine ⟨rfl, rfl, rfl, rfl⟩

/-- Claim C2, behavior at the failing input: a rank-2 tensor whose shard
shape is (2, 2) in F32, split across 2 shards along axis 0 (full
unsharded shape (4, 2)). The writer repositions the cursor only
`ggml_nbytes` of the shard-local shape past the body start (16 bytes),
while the logical unsharded body is 32 bytes. -/
theorem c2_end_seek_uses_part_shape :
    tensor_end_seek 0 [2, 2] 0 = some 16 ∧
    ggml_nbytes [4, 2] 0 = some 32 := by
  exact ⟨rfl, rfl⟩

end ConvertPth
